import Mathlib

/-!
Verification of the arXivist query-construction and paginated-retrieval
engine (`src/api/retrieve_paper.py`, class `SearchQuery`).

The Python code is shallowly embedded:

* `xml.etree.ElementTree` elements become the inductive `Element`
  (tag, attribute list, optional text, children); `Element.find`,
  `Element.findall` and `Element.get` mirror the library operations used
  by the code.  Tags are stored fully namespace-qualified, exactly as the
  code builds them by string concatenation.
* A raw response body is only ever handed to
  `xml.etree.ElementTree.fromstring`, so a body is modelled by the outcome
  of that parse (`XmlText`): either a well-formed root element or
  malformed input, on which `fromstring` raises `ParseError`
  (the spec's `MalformedResponse`).
* Python exceptions become the `Except PyError` monad.  Attribute access
  on `None` (e.g. `find` returning `None` followed by `.text`) raises
  `AttributeError`; `int(None)` raises `TypeError`; `int` on a
  non-numeric string raises `ValueError`.
* The HTTP transport `requests.get` becomes an explicit function
  `String → Response` from request URLs to responses.
* The generator `retrieve_valid_search_results` is modelled as the list
  of page batches it yields, or the exception that ends it; the object
  `self` is threaded through the loop so that frame properties about the
  query object can be stated.  Machine integers are `Nat` (all the
  quantities involved — cursors, page sizes, result counts — are
  non-negative counts).
-/

namespace ArXivist

/-- Constant `SearchQuery.BASE_QUERY_URL` from the source. -/
def BASE_QUERY_URL : String := "http://export.arxiv.org/api/query/?"

/-- Constant `SearchQuery.BASE_ARXIV_URL` from the source. -/
def BASE_ARXIV_URL : String := "http://arxiv.org/abs/"

/-- Constant `SearchQuery.XML_ATOM_ROOT` from the source. -/
def XML_ATOM_ROOT : String := "\x7bhttp://www.w3.org/2005/Atom\x7d"

/-- Constant `SearchQuery.XML_OPEN_SEARCH_ROOT` from the source. -/
def XML_OPEN_SEARCH_ROOT : String := "\x7bhttp://a9.com/-/spec/opensearch/1.1/\x7d"

/-- An `xml.etree.ElementTree.Element`: namespace-qualified tag, attribute
dictionary, optional text content, and child elements in document order. -/
inductive Element : Type where
  | mk (tag : String) (attrib : List (String × String)) (text : Option String)
      (children : List Element)

/-- The tag of an element. -/
def Element.tag : Element → String
  | .mk t _ _ _ => t

/-- The attribute dictionary of an element. -/
def Element.attrib : Element → List (String × String)
  | .mk _ a _ _ => a

/-- The text content of an element (`None` when absent). -/
def Element.text : Element → Option String
  | .mk _ _ tx _ => tx

/-- The child elements of an element, in document order. -/
def Element.children : Element → List Element
  | .mk _ _ _ c => c

/-- Python `Element.find(tag)`: the first child with the given qualified tag,
`None` when there is none. -/
def Element.find (parent : Element) (tag : String) : Option Element :=
  parent.children.find? (fun c => c.tag = tag)

/-- Python `Element.findall(tag)`: all children with the given qualified tag, in
document order. -/
def Element.findall (parent : Element) (tag : String) : List Element :=
  parent.children.filter (fun c => c.tag = tag)

/-- Python `Element.get(attr)`: attribute lookup, `None` when absent. -/
def Element.get (el : Element) (attr : String) : Option String :=
  (el.attrib.find? (fun p => p.1 = attr)).map (fun p => p.2)

/-- The Python exceptions the embedded code can raise.  `ParseError` is
`xml.etree.ElementTree.ParseError`, the spec's `MalformedResponse`. -/
inductive PyError : Type where
  | ParseError
  | AttributeError
  | TypeError
  | ValueError
deriving DecidableEq

/-- A response body, modelled by the outcome of
`xml.etree.ElementTree.fromstring` on it: either the parsed root element
of a well-formed document, or malformed (non-parseable) XML. -/
inductive XmlText : Type where
  | wellFormed (root : Element)
  | malformed

/-- Embeds `xml.etree.ElementTree.fromstring` (the code's `get_xml_tree`): yields
the root element of well-formed input and raises `ParseError`
(`MalformedResponse`) on malformed input. -/
def fromstring : XmlText → Except PyError Element
  | .wellFormed root => .ok root
  | .malformed => .error .ParseError

/-- A `requests.Response`, reduced to the fields the code reads: the
`ok` flag and the body text. -/
structure Response : Type where
  ok : Bool
  text : XmlText

/-- Modelled from the spec: the `ResultRecord` of §3 (class
`src.utility.search_result.SearchResult`, whose module is not in the
sources; its field names are visible at the construction site in
`parse_valid_response`).  Fields that the parser can set to Python `None`
are `Option`s; `keywords` is always empty at parse time. -/
structure SearchResult : Type where
  title : Option String
  id : String
  abstract : Option String
  authors : List (Option String)
  pdf_url : Option String
  publish : Option String
  keywords : List String
deriving DecidableEq

/-- The free-text filter tokens: one `code:term` token per term, in
title → author → abstract order with codes `ti`, `au`, `abs`, exactly as
the dict comprehension over `search_codes_to_params` produces them. -/
def searchTokens (title_args author_args abstract_args : List String) : List String :=
  title_args.map (fun p => "ti:" ++ p) ++ author_args.map (fun p => "au:" ++ p)
    ++ abstract_args.map (fun p => "abs:" ++ p)

/-- The string the source rebinds `id_args` to:
`('id_list=' + ','.join(id_args)) if id_args else ''`. -/
def idArgsFragment (id_args : List String) : String :=
  if id_args.isEmpty then "" else "id_list=" ++ String.intercalate "," id_args

/-- The string the source rebinds `formatted_params` to:
`('search_query=' + '+AND+'.join(formatted_params)) if formatted_params else ''`. -/
def formattedParams (title_args author_args abstract_args : List String) : String :=
  if (searchTokens title_args author_args abstract_args).isEmpty then ""
  else "search_query=" ++ String.intercalate "+AND+" (searchTokens title_args author_args abstract_args)

/-- The `params` variable of `SearchQuery.__init__`: the four-way branch
combining the free-text fragment and the id-list fragment.  The Python
truthiness tests on the two strings are string non-emptiness. -/
def renderParams (title_args author_args abstract_args id_args : List String) : String :=
  let f := formattedParams title_args author_args abstract_args
  let i := idArgsFragment id_args
  if ¬f.isEmpty ∧ ¬i.isEmpty then f ++ i
  else if ¬i.isEmpty then i
  else if ¬f.isEmpty then f
  else ""

/-- Modelled from the spec for the stored fields: `BaseQuery.__init__`
(module `src.utility.base_query`, not in the sources) stores the term
groups and the pagination window per §3's QuerySpec attributes; the
`query` field is computed by `SearchQuery.__init__`, which is in the
sources. -/
structure SearchQuery : Type where
  title_args : List String
  author_args : List String
  abstract_args : List String
  id_args : List String
  max_result : Nat
  start : Nat
  query : String

/-- Embeds `SearchQuery.__init__`: stores the arguments and renders the query
string `BASE_QUERY_URL + params`. -/
def SearchQuery.init (title_args author_args abstract_args id_args : List String)
    (max_result : Nat) (start : Nat) : SearchQuery :=
  { title_args := title_args, author_args := author_args,
    abstract_args := abstract_args, id_args := id_args,
    max_result := max_result, start := start,
    query := BASE_QUERY_URL ++ renderParams title_args author_args abstract_args id_args }

/-- The URL requested by `get_response_with_limited_query`:
`self.query + f'&start={start}&max_result={space}'`. -/
def limitedQueryUrl (q : SearchQuery) (start space : Nat) : String :=
  q.query ++ "&start=" ++ toString start ++ "&max_result=" ++ toString space

/-- Embeds `get_response_with_limited_query`, with the transport `requests.get`
made an explicit function from URLs to responses. -/
def get_response_with_limited_query (http_get : String → Response) (q : SearchQuery)
    (start space : Nat) : Response :=
  http_get (limitedQueryUrl q start space)

/-- Embeds `get_atom_child`: `parent.find` under the Atom namespace. -/
def get_atom_child (parent : Element) (tag : String) : Option Element :=
  parent.find (XML_ATOM_ROOT ++ tag)

/-- Embeds `get_atom_child_text`: `self.get_atom_child(parent, tag).text`.  When
the child is absent, `find` returns `None` and the `.text` access raises
`AttributeError`. -/
def get_atom_child_text (parent : Element) (tag : String) : Except PyError (Option String) :=
  match get_atom_child parent tag with
  | some el => .ok el.text
  | none => .error .AttributeError

/-- Embeds `get_atom_children`: `parent.findall` under the Atom namespace. -/
def get_atom_children (parent : Element) (tag : String) : List Element :=
  parent.findall (XML_ATOM_ROOT ++ tag)

/-- Embeds `get_open_search_child`: `parent.find` under the OpenSearch
namespace. -/
def get_open_search_child (parent : Element) (tag : String) : Option Element :=
  parent.find (XML_OPEN_SEARCH_ROOT ++ tag)

/-- The author-name list comprehension in `parse_valid_response`:
`[self.get_atom_child(author, 'name').text for author in authors]`.
An author element without a `name` child makes the eager `.text` access
raise `AttributeError`; a `name` element without text contributes
`None`. -/
def parseAuthors : List Element → Except PyError (List (Option String))
  | [] => .ok []
  | author :: rest =>
    match get_atom_child author "name" with
    | none => .error .AttributeError
    | some nameEl =>
      match parseAuthors rest with
      | .error e => .error e
      | .ok tail => .ok (nameEl.text :: tail)

/-- The `pdf_link` scan in `parse_valid_response`: the first `link`
child whose `title` attribute is truthy (present and non-empty) supplies
`link.get('href')`; with no such link the value stays `None`. -/
def findPdfLink : List Element → Option String
  | [] => none
  | link :: rest =>
    match link.get "title" with
    | some t => if t = "" then findPdfLink rest else link.get "href"
    | none => findPdfLink rest

/-- Python `str.startswith`: character-level prefix test. -/
def startswith (s pre : String) : Bool :=
  pre.data.isPrefixOf s.data

/-- The per-entry body of the loop in `parse_valid_response`: field
extraction in source order (title, id with prefix stripping, summary,
published, updated override, pdf link, authors).  The id slice
`arxiv_id[len(self.BASE_ARXIV_URL):]` drops the prefix's characters; a
`None` id makes `startswith` raise `AttributeError`. -/
def parse_entry (entry : Element) : Except PyError SearchResult :=
  match get_atom_child_text entry "title" with
  | .error e => .error e
  | .ok title =>
    match get_atom_child_text entry "id" with
    | .error e => .error e
    | .ok none => .error .AttributeError
    | .ok (some rawId) =>
      let arxiv_id :=
        if startswith rawId BASE_ARXIV_URL then rawId.drop BASE_ARXIV_URL.length else rawId
      match get_atom_child_text entry "summary" with
      | .error e => .error e
      | .ok abstract =>
        match get_atom_child_text entry "published" with
        | .error e => .error e
        | .ok published =>
          let date :=
            match (get_atom_children entry "updated").getLast? with
            | some lastUpdated => lastUpdated.text
            | none => published
          let pdf_link := findPdfLink (get_atom_children entry "link")
          match parseAuthors (get_atom_children entry "author") with
          | .error e => .error e
          | .ok authors =>
            .ok { title := title, id := arxiv_id, abstract := abstract,
                  authors := authors, pdf_url := pdf_link, publish := date,
                  keywords := [] }

/-- The entry loop of `parse_valid_response`, appending parsed entries in
document order; the first raised exception ends the whole call. -/
def parseEntries : List Element → Except PyError (List SearchResult)
  | [] => .ok []
  | entry :: rest =>
    match parse_entry entry with
    | .error e => .error e
    | .ok r =>
      match parseEntries rest with
      | .error e => .error e
      | .ok tail => .ok (r :: tail)

/-- Embeds `parse_valid_response`: parse the body, collect the `entry` children
of the root, and parse each entry. -/
def parse_valid_response (xml_response : XmlText) : Except PyError (List SearchResult) :=
  match fromstring xml_response with
  | .error e => .error e
  | .ok root => parseEntries (get_atom_children root "entry")

/-- Embeds `parse_error`: parse the body, then eagerly navigate
`root → entry → summary` and return the summary's text.  A missing child
raises `AttributeError` through the `.find(...)` result. -/
def parse_error (error_msg : XmlText) : Except PyError (Option String) :=
  match fromstring error_msg with
  | .error e => .error e
  | .ok root =>
    match get_atom_child root "entry" with
    | none => .error .AttributeError
    | some entry =>
      match get_atom_child entry "summary" with
      | none => .error .AttributeError
      | some summary => .ok summary.text

/-- Decimal reading of a character list: the value of a non-empty
all-digit list, `none` otherwise. -/
def digitsVal : List Char → Option Nat
  | [] => none
  | cs => go cs 0
where
  /-- Accumulator loop for `digitsVal`. -/
  go : List Char → Nat → Option Nat
  | [], acc => some acc
  | c :: rest, acc => if c.isDigit then go rest (acc * 10 + (c.toNat - 48)) else none

/-- Python `int` applied to `Optional[str]`: `int(None)` raises
`TypeError`, a non-numeric string raises `ValueError`. `totalResults` is
a count, so the numeric case is a `Nat`. -/
def int_of_text : Option String → Except PyError Nat
  | none => .error .TypeError
  | some s =>
    match digitsVal s.data with
    | some n => .ok n
    | none => .error .ValueError

/-- The cursors at which the `while True` loop of
`retrieve_valid_search_results` issues page fetches: the first iteration
is unconditional, and after each iteration the cursor advances by
`space`, the loop breaking once it exceeds `e`.  (`0 < space` is part of
the guard only to make the recursion total; with `space = 0` and
`start ≤ e` the source loops forever.) -/
def fetched_cursors (start space e : Nat) : List Nat :=
  start ::
    (if h : 0 < space ∧ start + space ≤ e then fetched_cursors (start + space) space e else [])
termination_by e + 1 - start
decreasing_by omega

/-- Embeds `retrieve_valid_search_results(start, space, end)`: fetch and parse a
page at the cursor, yield the enumerated batch, advance the cursor by
`space`, and stop once the cursor strictly exceeds `e`.  The generator is
modelled by the list of batches it yields (or the exception ending it),
paired with the `self` object threaded through the loop — the loop only
rebinds locals, never attributes of `self`.  As in `fetched_cursors`,
`0 < space` in the guard makes the recursion total. -/
def retrieve_valid_search_results (http_get : String → Response) (q : SearchQuery)
    (start space e : Nat) :
    Except PyError (List (List (Nat × SearchResult))) × SearchQuery :=
  match parse_valid_response (get_response_with_limited_query http_get q start space).text with
  | .error err => (.error err, q)
  | .ok search_results =>
    if h : 0 < space ∧ start + space ≤ e then
      match retrieve_valid_search_results http_get q (start + space) space e with
      | (.error err, q2) => (.error err, q2)
      | (.ok rest, q2) => (.ok (search_results.enum :: rest), q2)
    else (.ok [search_results.enum], q)
termination_by e + 1 - start
decreasing_by omega

/-- What a whole retrieval surfaces to the caller: a sequence of page
batches, or (on the non-`ok` branch) the parsed error-envelope message in
place of a result sequence. -/
inductive RetrievalOutcome : Type where
  | results (batches : List (List (Nat × SearchResult)))
  | errorMessage (msg : Option String)

/-- Embeds `retrieve_search_results`: issue the starting request at
`(self.start, self.max_result)`; on an `ok` response read `totalResults`
from the OpenSearch metadata and run the page loop; otherwise surface the
parsed error message.  The `self` object is returned alongside the
outcome, as in `retrieve_valid_search_results`. -/
def retrieve_search_results (http_get : String → Response) (q : SearchQuery) :
    Except PyError RetrievalOutcome × SearchQuery :=
  let response := get_response_with_limited_query http_get q q.start q.max_result
  if response.ok then
    match fromstring response.text with
    | .error e => (.error e, q)
    | .ok root =>
      match get_open_search_child root "totalResults" with
      | none => (.error .AttributeError, q)
      | some totalEl =>
        match int_of_text totalEl.text with
        | .error e => (.error e, q)
        | .ok total_results =>
          match retrieve_valid_search_results http_get q q.start q.max_result total_results with
          | (.error e, q2) => (.error e, q2)
          | (.ok batches, q2) => (.ok (.results batches), q2)
  else
    match parse_error response.text with
    | .error e => (.error e, q)
    | .ok msg => (.ok (.errorMessage msg), q)

/-- Spec-side description of the canonical-link convention: a `link`
element qualifies when its `title` attribute is present and non-empty
(Python truthiness of `link.get('title')`). -/
def linkHasTitle (link : Element) : Bool :=
  match link.get "title" with
  | some t => t ≠ ""
  | none => false

/-- Shape conditions under which the entry parser cannot raise: the
`title`, `id`, `summary` and `published` children are present, the id
element carries text, and every `author` child has a `name` child.
Absent `updated` or `link` elements and empty text fields are allowed. -/
def wellShapedEntry (entry : Element) : Bool :=
  (get_atom_child entry "title").isSome &&
  (match get_atom_child entry "id" with
   | some idEl => idEl.text.isSome
   | none => false) &&
  (get_atom_child entry "summary").isSome &&
  (get_atom_child entry "published").isSome &&
  (get_atom_children entry "author").all (fun a => (get_atom_child a "name").isSome)

/-- Spec-side description of the page loop's output: one parsed,
enumerated batch per fetched cursor, the first raised exception ending
the sequence. -/
def batchesAt (http_get : String → Response) (q : SearchQuery) (space : Nat) :
    List Nat → Except PyError (List (List (Nat × SearchResult)))
  | [] => .ok []
  | c :: cs =>
    match parse_valid_response (http_get (limitedQueryUrl q c space)).text with
    | .error e => .error e
    | .ok b =>
      match batchesAt http_get q space cs with
      | .error e => .error e
      | .ok rest => .ok (b.enum :: rest)

/-! ### Concrete fixtures used by witnesses and counterexamples -/

/-- Fixture: a `title` element. -/
def titleEl : Element := .mk (XML_ATOM_ROOT ++ "title") [] (some "A Paper") []

/-- Fixture: an `id` element whose text does not carry the base-URL
prefix. -/
def idElPlain : Element := .mk (XML_ATOM_ROOT ++ "id") [] (some "1811.03555") []

/-- Fixture: an `id` element whose text carries the base-URL prefix. -/
def idElPrefixed : Element :=
  .mk (XML_ATOM_ROOT ++ "id") [] (some "http://arxiv.org/abs/1811.03555") []

/-- Fixture: a `summary` element. -/
def summaryEl : Element := .mk (XML_ATOM_ROOT ++ "summary") [] (some "An abstract") []

/-- Fixture: a `published` element. -/
def publishedEl : Element := .mk (XML_ATOM_ROOT ++ "published") [] (some "2019-01-01") []

/-- Fixture: an `updated` element. -/
def updatedEl : Element := .mk (XML_ATOM_ROOT ++ "updated") [] (some "2020-02-02") []

/-- Fixture: a `link` element with no `title` attribute. -/
def linkPlain : Element :=
  .mk (XML_ATOM_ROOT ++ "link") [("href", "http://arxiv.org/abs/1811.03555v1")] none []

/-- Fixture: a `link` element whose `title` attribute is non-empty. -/
def linkPdf : Element :=
  .mk (XML_ATOM_ROOT ++ "link")
    [("title", "pdf"), ("href", "http://arxiv.org/pdf/1811.03555v1")] none []

/-- Fixture: an entry with exactly one `updated` element. -/
def entryOneUpdated : Element :=
  .mk (XML_ATOM_ROOT ++ "entry") [] none [titleEl, idElPlain, summaryEl, publishedEl, updatedEl]

/-- Fixture: an entry with zero `updated` elements and two `link`
elements of which only the second carries a non-empty `title`
attribute. -/
def entryTwoLinks : Element :=
  .mk (XML_ATOM_ROOT ++ "entry") [] none [titleEl, idElPlain, summaryEl, publishedEl,
    linkPlain, linkPdf]

/-- Fixture: an entry whose id text carries the base-URL prefix. -/
def entryPrefixedId : Element :=
  .mk (XML_ATOM_ROOT ++ "entry") [] none [titleEl, idElPrefixed, summaryEl, publishedEl]

/-- Fixture: an oddly-shaped entry with no `title` child. -/
def entryNoTitle : Element := .mk (XML_ATOM_ROOT ++ "entry") [] none []

/-- Fixture: a well-formed feed whose only entry has no `title` child. -/
def feedNoTitle : Element := .mk "feed" [] none [entryNoTitle]

/-- Fixture: a well-formed feed with two well-shaped entries. -/
def feedGood : Element := .mk "feed" [] none [entryOneUpdated, entryTwoLinks]

/-- Fixture: a `summary` element holding a service error message. -/
def errorSummaryEl : Element :=
  .mk (XML_ATOM_ROOT ++ "summary") [] (some "Invalid id list") []

/-- Fixture: the error envelope's `entry` element. -/
def errorEntryEl : Element := .mk (XML_ATOM_ROOT ++ "entry") [] none [errorSummaryEl]

/-- Fixture: a well-formed error envelope whose entry's summary holds
the text "Invalid id list". -/
def errorFeed : Element := .mk "feed" [] none [errorEntryEl]

/-- Fixture: a metadata-bearing feed reporting `totalResults = 25` and
containing no entries. -/
def feedTotal25 : Element :=
  .mk "feed" [] none [.mk (XML_OPEN_SEARCH_ROOT ++ "totalResults") [] (some "25") []]

/-- Fixture: a transport that answers every URL with an `ok` response
whose body is `feedTotal25`. -/
def hgTotal25 : String → Response := fun _ => { ok := true, text := .wellFormed feedTotal25 }

/-- Fixture: a transport that answers every URL with a non-`ok` response
whose body is the error envelope `errorFeed`. -/
def hgError : String → Response := fun _ => { ok := false, text := .wellFormed errorFeed }

/-- Fixture: an id-only query with the default window `(0, 10)`. -/
def qFixture : SearchQuery := SearchQuery.init [] [] [] ["1811.03555"] 10 0

/-! ### Query-construction lemmas -/

theorem ne_empty_of_length_pos {s : String} (h : 0 < s.length) : s ≠ "" := by
  intro he
  rw [he] at h
  simp at h

theorem idArgsFragment_ne_empty {ids : List String} (h : ids ≠ []) :
    idArgsFragment ids ≠ "" := by
  unfold idArgsFragment
  rw [if_neg (by simpa using h)]
  apply ne_empty_of_length_pos
  rw [String.length_append]
  have h8 : (0 : Nat) < "id_list=".length := by decide
  omega

theorem searchTokens_eq_nil_iff {t a ab : List String} :
    searchTokens t a ab = [] ↔ t = [] ∧ a = [] ∧ ab = [] := by
  simp [searchTokens]

theorem formattedParams_ne_empty {t a ab : List String}
    (h : ¬(t = [] ∧ a = [] ∧ ab = [])) : formattedParams t a ab ≠ "" := by
  unfold formattedParams
  rw [if_neg (by simp [searchTokens_eq_nil_iff]; tauto)]
  apply ne_empty_of_length_pos
  rw [String.length_append]
  have h13 : (0 : Nat) < "search_query=".length := by decide
  omega

theorem formattedParams_eq {t a ab : List String}
    (h : ¬(t = [] ∧ a = [] ∧ ab = [])) :
    formattedParams t a ab
      = "search_query=" ++ String.intercalate "+AND+" (searchTokens t a ab) := by
  unfold formattedParams
  rw [if_neg (by simp [searchTokens_eq_nil_iff]; tauto)]

theorem idArgsFragment_eq {ids : List String} (h : ids ≠ []) :
    idArgsFragment ids = "id_list=" ++ String.intercalate "," ids := by
  unfold idArgsFragment
  rw [if_neg (by simpa using h)]

theorem renderParams_free {t a ab : List String}
    (h : ¬(t = [] ∧ a = [] ∧ ab = [])) :
    renderParams t a ab []
      = "search_query=" ++ String.intercalate "+AND+" (searchTokens t a ab) := by
  have hf := formattedParams_ne_empty h
  have hi : idArgsFragment [] = "" := rfl
  unfold renderParams
  simp only [hi, String.isEmpty_iff]
  rw [if_neg (by simp), if_neg (by simp), if_pos hf]
  exact formattedParams_eq h

theorem renderParams_ids {ids : List String} (h : ids ≠ []) :
    renderParams [] [] [] ids = "id_list=" ++ String.intercalate "," ids := by
  have hi := idArgsFragment_ne_empty h
  have hf : formattedParams [] [] [] = "" := rfl
  unfold renderParams
  simp only [hf, String.isEmpty_iff]
  rw [if_neg (by simp), if_pos hi]
  exact idArgsFragment_eq h

theorem renderParams_both {t a ab ids : List String}
    (hfree : ¬(t = [] ∧ a = [] ∧ ab = [])) (hids : ids ≠ []) :
    renderParams t a ab ids
      = ("search_query=" ++ String.intercalate "+AND+" (searchTokens t a ab))
          ++ ("id_list=" ++ String.intercalate "," ids) := by
  have hf := formattedParams_ne_empty hfree
  have hi := idArgsFragment_ne_empty hids
  unfold renderParams
  simp only [String.isEmpty_iff]
  rw [if_pos ⟨hf, hi⟩, formattedParams_eq hfree, idArgsFragment_eq hids]

/-- C6: with only free-text terms (at least one title, author, or
abstract term and no id terms), the rendered query is the base URL
followed by `search_query=` and the `code:term` tokens (codes `ti`, `au`,
`abs`, in title → author → abstract order) joined by the `+AND+`
conjunction; the id-list fragment rendered for the empty id group is the
empty string, so no `id_list=` marker is emitted. -/
theorem c6_free_text_query (title_args author_args abstract_args : List String)
    (max_result start : Nat)
    (hfree : title_args ≠ [] ∨ author_args ≠ [] ∨ abstract_args ≠ []) :
    (SearchQuery.init title_args author_args abstract_args [] max_result start).query
      = BASE_QUERY_URL ++ ("search_query="
          ++ String.intercalate "+AND+"
            (title_args.map (fun p => "ti:" ++ p) ++ author_args.map (fun p => "au:" ++ p)
              ++ abstract_args.map (fun p => "abs:" ++ p)))
      ∧ idArgsFragment [] = "" := by
  refine ⟨?_, rfl⟩
  show BASE_QUERY_URL ++ renderParams title_args author_args abstract_args [] = _
  rw [renderParams_free (by tauto)]
  rfl

/-- Witness for C6 at a concrete spec with one title and one abstract
term. -/
theorem c6_free_text_query_witness :
    (SearchQuery.init ["deep"] [] ["learning"] [] 10 0).query
      = BASE_QUERY_URL ++ ("search_query="
          ++ String.intercalate "+AND+"
            ((["deep"].map (fun p => "ti:" ++ p)) ++ (([] : List String).map (fun p => "au:" ++ p))
              ++ (["learning"].map (fun p => "abs:" ++ p))))
      ∧ idArgsFragment [] = "" :=
  c6_free_text_query ["deep"] [] ["learning"] 10 0 (Or.inl (by simp))

/-- C7: with only id terms, the rendered query is the base URL followed
by `id_list=` and the comma-joined ids; the free-text fragment rendered
for the three empty term groups is the empty string, so no
`search_query=` marker is emitted. -/
theorem c7_id_only_query (id_args : List String) (max_result start : Nat)
    (hids : id_args ≠ []) :
    (SearchQuery.init [] [] [] id_args max_result start).query
      = BASE_QUERY_URL ++ ("id_list=" ++ String.intercalate "," id_args)
      ∧ formattedParams [] [] [] = "" := by
  refine ⟨?_, rfl⟩
  show BASE_QUERY_URL ++ renderParams [] [] [] id_args = _
  rw [renderParams_ids hids]

/-- Witness for C7 at a concrete spec with two ids. -/
theorem c7_id_only_query_witness :
    (SearchQuery.init [] [] [] ["1811.03555", "1706.03762"] 10 0).query
      = BASE_QUERY_URL ++ ("id_list=" ++ String.intercalate "," ["1811.03555", "1706.03762"])
      ∧ formattedParams [] [] [] = "" :=
  c7_id_only_query ["1811.03555", "1706.03762"] 10 0 (by simp)

/-- C9: with both free-text terms and id terms, the rendered query is the
`search_query=` fragment immediately followed by the `id_list=` fragment,
with no separator character in between. -/
theorem c9_no_separator (title_args author_args abstract_args id_args : List String)
    (max_result start : Nat)
    (hfree : title_args ≠ [] ∨ author_args ≠ [] ∨ abstract_args ≠ [])
    (hids : id_args ≠ []) :
    (SearchQuery.init title_args author_args abstract_args id_args max_result start).query
      = BASE_QUERY_URL
          ++ (("search_query="
              ++ String.intercalate "+AND+"
                (searchTokens title_args author_args abstract_args))
            ++ ("id_list=" ++ String.intercalate "," id_args)) := by
  show BASE_QUERY_URL ++ renderParams title_args author_args abstract_args id_args = _
  rw [renderParams_both (by tauto) hids]

/-- Witness for C9: one title term and one id; the literal `id_list=`
directly abuts the final free-text token. -/
theorem c9_no_separator_witness :
    (SearchQuery.init ["deep"] [] [] ["1811.03555"] 10 0).query
      = BASE_QUERY_URL
          ++ (("search_query=" ++ String.intercalate "+AND+" (searchTokens ["deep"] [] []))
            ++ ("id_list=" ++ String.intercalate "," ["1811.03555"])) :=
  c9_no_separator ["deep"] [] [] ["1811.03555"] 10 0 (Or.inl (by simp)) (by simp)


/-! ### Entry-parser lemmas -/

theorem get_atom_child_text_ok {parent : Element} {tag : String} {tx : Option String}
    (h : get_atom_child_text parent tag = .ok tx) :
    ∃ el, get_atom_child parent tag = some el ∧ el.text = tx := by
  unfold get_atom_child_text at h
  cases hg : get_atom_child parent tag with
  | some el =>
    rw [hg] at h
    exact ⟨el, rfl, by injection h⟩
  | none =>
    rw [hg] at h
    cases h

theorem parse_entry_ok_inv {entry : Element} {r : SearchResult}
    (h : parse_entry entry = .ok r) :
    ∃ titleEl idEl rawId sumEl pubEl authors,
      get_atom_child entry "title" = some titleEl ∧
      get_atom_child entry "id" = some idEl ∧ idEl.text = some rawId ∧
      get_atom_child entry "summary" = some sumEl ∧
      get_atom_child entry "published" = some pubEl ∧
      parseAuthors (get_atom_children entry "author") = .ok authors ∧
      r = { title := titleEl.text,
            id := if startswith rawId BASE_ARXIV_URL then rawId.drop BASE_ARXIV_URL.length
                  else rawId,
            abstract := sumEl.text,
            authors := authors,
            pdf_url := findPdfLink (get_atom_children entry "link"),
            publish := match (get_atom_children entry "updated").getLast? with
                       | some lastUpdated => lastUpdated.text
                       | none => pubEl.text,
            keywords := [] } := by
  unfold parse_entry at h
  cases htitle : get_atom_child_text entry "title" with
  | error e => rw [htitle] at h; cases h
  | ok title =>
  rw [htitle] at h
  cases hid : get_atom_child_text entry "id" with
  | error e => rw [hid] at h; cases h
  | ok oid =>
  rw [hid] at h
  cases oid with
  | none => cases h
  | some rawId =>
  cases hsum : get_atom_child_text entry "summary" with
  | error e => rw [hsum] at h; cases h
  | ok abstract =>
  rw [hsum] at h
  cases hpub : get_atom_child_text entry "published" with
  | error e => rw [hpub] at h; cases h
  | ok published =>
  rw [hpub] at h
  cases hauth : parseAuthors (get_atom_children entry "author") with
  | error e => simp [hauth] at h
  | ok authors =>
  obtain ⟨titleEl, htEl, htx⟩ := get_atom_child_text_ok htitle
  obtain ⟨idEl, hiEl, hix⟩ := get_atom_child_text_ok hid
  obtain ⟨sumEl, hsEl, hsx⟩ := get_atom_child_text_ok hsum
  obtain ⟨pubEl, hpEl, hpx⟩ := get_atom_child_text_ok hpub
  subst htx hsx hpx
  simp only [hauth, Except.ok.injEq] at h
  exact ⟨titleEl, idEl, rawId, sumEl, pubEl, authors, htEl, hiEl, hix, hsEl, hpEl, rfl,
    h.symm⟩


theorem findPdfLink_eq_find? (ls : List Element) :
    findPdfLink ls = (ls.find? linkHasTitle).bind (fun l => l.get "href") := by
  induction ls with
  | nil => rfl
  | cons l rest ih =>
    cases hg : l.get "title" with
    | none =>
      have hp : ¬linkHasTitle l = true := by simp [linkHasTitle, hg]
      rw [List.find?_cons_of_neg _ hp]
      simp only [findPdfLink, hg]
      exact ih
    | some t =>
      by_cases ht : t = ""
      · have hp : ¬linkHasTitle l = true := by simp [linkHasTitle, hg, ht]
        rw [List.find?_cons_of_neg _ hp]
        simp only [findPdfLink, hg, if_pos ht]
        exact ih
      · have hp : linkHasTitle l = true := by simp [linkHasTitle, hg, ht]
        rw [List.find?_cons_of_pos _ hp]
        simp only [findPdfLink, hg, if_neg ht]
        rfl

theorem startswith_append_drop {s pre : String} (h : startswith s pre = true) :
    pre ++ s.drop pre.length = s := by
  unfold startswith at h
  rw [ List.isPrefixOf_iff_prefix] at h
  obtain ⟨t, ht⟩ := h
  apply String.ext
  rw [String.data_append, String.data_drop, ← ht]
  have hl : pre.length = pre.data.length := rfl
  rw [hl, List.drop_left]

/-- C4: for a successfully parsed entry, `publishedOrUpdatedDate` is the
text of the last `updated` element in document order when the entry has
one or more `updated` elements, and the `published` element's text when
it has none. -/
theorem c4_date_preference {entry : Element} {r : SearchResult}
    (h : parse_entry entry = .ok r) :
    (∀ lastUpdated, (get_atom_children entry "updated").getLast? = some lastUpdated →
        r.publish = lastUpdated.text)
    ∧ (get_atom_children entry "updated" = [] →
        ∀ pubEl, get_atom_child entry "published" = some pubEl → r.publish = pubEl.text) := by
  obtain ⟨titleEl, idEl, rawId, sumEl, pubEl, authors, _, _, _, _, hpEl, _, hr⟩ :=
    parse_entry_ok_inv h
  subst hr
  constructor
  · intro u hu
    simp [hu]
  · intro hnil pubEl2 hpub2
    rw [hpub2] at hpEl
    injection hpEl with hpEl
    simp [hnil, hpEl]

/-- Witness for C4: an entry with exactly one `updated` element takes
that element's text (not the `published` text), and the same entry
without its `updated` element takes the `published` text. -/
theorem c4_date_preference_witness :
    ((SearchResult.mk (some "A Paper") "1811.03555" (some "An abstract") [] none
        (some "2020-02-02") []).publish = updatedEl.text)
    ∧ ((SearchResult.mk (some "A Paper") "1811.03555" (some "An abstract") [] none
        (some "2019-01-01") []).publish = publishedEl.text) :=
  ⟨(c4_date_preference (rfl : parse_entry entryOneUpdated = .ok _)).1 updatedEl rfl,
   (c4_date_preference (rfl : parse_entry entryPrefixedId = .ok _)).2 rfl publishedEl rfl⟩


/-- C5: for a successfully parsed entry, `pdfUrl` is the href attribute
of the first `link` element in document order whose `title` attribute is
present and non-empty, and is absent when no such link exists. -/
theorem c5_pdf_url {entry : Element} {r : SearchResult}
    (h : parse_entry entry = .ok r) :
    r.pdf_url = ((get_atom_children entry "link").find? linkHasTitle).bind (fun l => l.get "href")
    ∧ ((get_atom_children entry "link").find? linkHasTitle = none → r.pdf_url = none) := by
  obtain ⟨titleEl, idEl, rawId, sumEl, pubEl, authors, _, _, _, _, _, _, hr⟩ :=
    parse_entry_ok_inv h
  subst hr
  refine ⟨findPdfLink_eq_find? _, fun hnone => ?_⟩
  show findPdfLink (get_atom_children entry "link") = none
  rw [findPdfLink_eq_find? _, hnone]
  rfl

/-- Witness for C5: an entry with two `link` elements where only the
second carries a non-empty `title` attribute resolves `pdfUrl` to the
second link's href. -/
theorem c5_pdf_url_witness :
    (SearchResult.mk (some "A Paper") "1811.03555" (some "An abstract") []
        (some "http://arxiv.org/pdf/1811.03555v1") (some "2019-01-01") []).pdf_url
      = ((get_atom_children entryTwoLinks "link").find? linkHasTitle).bind
          (fun l => l.get "href")
    ∧ ((get_atom_children entryTwoLinks "link").find? linkHasTitle).bind
          (fun l => l.get "href")
      = linkPdf.get "href" :=
  ⟨(c5_pdf_url (rfl : parse_entry entryTwoLinks = .ok _)).1, rfl⟩

/-- C8: for a successfully parsed entry whose id element's text begins
with the absolute-URL prefix `http://arxiv.org/abs/`, the record's id is
that text with the prefix stripped (appending the prefix back recovers
the raw text); an id text without the prefix is passed through
unchanged. -/
theorem c8_id_normalization {entry : Element} {r : SearchResult} {idEl : Element} {s : String}
    (hid : get_atom_child entry "id" = some idEl) (htext : idEl.text = some s)
    (h : parse_entry entry = .ok r) :
    (startswith s BASE_ARXIV_URL = true → BASE_ARXIV_URL ++ r.id = s)
    ∧ (startswith s BASE_ARXIV_URL = false → r.id = s) := by
  obtain ⟨titleEl, idEl2, rawId, sumEl, pubEl, authors, _, hiEl, hix, _, _, _, hr⟩ :=
    parse_entry_ok_inv h
  rw [hid] at hiEl
  injection hiEl with hiEl
  subst hiEl
  rw [htext] at hix
  injection hix with hix
  subst hix
  subst hr
  constructor
  · intro hsw
    show BASE_ARXIV_URL ++
        (if startswith s BASE_ARXIV_URL then s.drop BASE_ARXIV_URL.length else s) = s
    rw [if_pos hsw]
    exact startswith_append_drop hsw
  · intro hsw
    show (if startswith s BASE_ARXIV_URL then s.drop BASE_ARXIV_URL.length else s) = s
    simp [hsw]

/-- Witness for C8: a prefixed id is stripped down to the bare arXiv id,
and an unprefixed id is passed through unchanged. -/
theorem c8_id_normalization_witness :
    (BASE_ARXIV_URL ++ (SearchResult.mk (some "A Paper") "1811.03555" (some "An abstract")
        [] none (some "2019-01-01") []).id = "http://arxiv.org/abs/1811.03555")
    ∧ ((SearchResult.mk (some "A Paper") "1811.03555" (some "An abstract") [] none
        (some "2020-02-02") []).id = "1811.03555") :=
  ⟨(c8_id_normalization (rfl : get_atom_child entryPrefixedId "id" = some idElPrefixed)
      (rfl : idElPrefixed.text = some "http://arxiv.org/abs/1811.03555")
      (rfl : parse_entry entryPrefixedId = .ok _)).1 rfl,
   (c8_id_normalization (rfl : get_atom_child entryOneUpdated "id" = some idElPlain)
      (rfl : idElPlain.text = some "1811.03555")
      (rfl : parse_entry entryOneUpdated = .ok _)).2 rfl⟩


theorem parseAuthors_error_attr {l : List Element} {e : PyError}
    (h : parseAuthors l = .error e) : e = .AttributeError := by
  induction l generalizing e with
  | nil => cases h
  | cons a rest ih =>
    unfold parseAuthors at h
    cases hn : get_atom_child a "name" with
    | none =>
      rw [hn] at h
      injection h with h
      exact h.symm
    | some nameEl =>
      rw [hn] at h
      cases hr : parseAuthors rest with
      | error e2 =>
        rw [hr] at h
        injection h with h
        rw [← h]
        exact ih hr
      | ok tail => rw [hr] at h; cases h

theorem get_atom_child_text_error_attr {parent : Element} {tag : String} {e : PyError}
    (h : get_atom_child_text parent tag = .error e) : e = .AttributeError := by
  unfold get_atom_child_text at h
  cases hg : get_atom_child parent tag with
  | some el => rw [hg] at h; cases h
  | none => rw [hg] at h; injection h with h; exact h.symm

theorem parse_entry_error_attr {entry : Element} {e : PyError}
    (h : parse_entry entry = .error e) : e = .AttributeError := by
  unfold parse_entry at h
  cases htitle : get_atom_child_text entry "title" with
  | error e2 =>
    rw [htitle] at h
    injection h with h
    rw [← h]
    exact get_atom_child_text_error_attr htitle
  | ok title =>
  rw [htitle] at h
  cases hid : get_atom_child_text entry "id" with
  | error e2 =>
    rw [hid] at h
    injection h with h
    rw [← h]
    exact get_atom_child_text_error_attr hid
  | ok oid =>
  rw [hid] at h
  cases oid with
  | none => injection h with h; exact h.symm
  | some rawId =>
  cases hsum : get_atom_child_text entry "summary" with
  | error e2 =>
    rw [hsum] at h
    injection h with h
    rw [← h]
    exact get_atom_child_text_error_attr hsum
  | ok abstract =>
  rw [hsum] at h
  cases hpub : get_atom_child_text entry "published" with
  | error e2 =>
    rw [hpub] at h
    injection h with h
    rw [← h]
    exact get_atom_child_text_error_attr hpub
  | ok published =>
  rw [hpub] at h
  cases hauth : parseAuthors (get_atom_children entry "author") with
  | error e2 =>
    simp only [hauth] at h
    injection h with h
    rw [← h]
    exact parseAuthors_error_attr hauth
  | ok authors => simp only [hauth] at h; cases h

theorem parseEntries_error_attr {l : List Element} {e : PyError}
    (h : parseEntries l = .error e) : e = .AttributeError := by
  induction l generalizing e with
  | nil => cases h
  | cons entry rest ih =>
    unfold parseEntries at h
    cases he : parse_entry entry with
    | error e2 =>
      rw [he] at h
      injection h with h
      rw [← h]
      exact parse_entry_error_attr he
    | ok r =>
      rw [he] at h
      cases hr : parseEntries rest with
      | error e2 =>
        rw [hr] at h
        injection h with h
        rw [← h]
        exact ih hr
      | ok tail => rw [hr] at h; cases h

theorem parseAuthors_ok_of_names {l : List Element}
    (h : ∀ a ∈ l, (get_atom_child a "name").isSome) :
    ∃ ns, parseAuthors l = .ok ns := by
  induction l with
  | nil => exact ⟨[], rfl⟩
  | cons a rest ih =>
    obtain ⟨nameEl, hn⟩ := Option.isSome_iff_exists.mp (h a (by simp))
    obtain ⟨tail, htail⟩ := ih (fun x hx => h x (by simp [hx]))
    exact ⟨nameEl.text :: tail, by unfold parseAuthors; rw [hn, htail]⟩

theorem parse_entry_ok_of_wellShaped {entry : Element}
    (h : wellShapedEntry entry = true) : ∃ r, parse_entry entry = .ok r := by
  unfold wellShapedEntry at h
  simp only [Bool.and_eq_true, List.all_eq_true] at h
  obtain ⟨⟨⟨⟨ht, hi⟩, hs⟩, hp⟩, ha⟩ := h
  obtain ⟨titleEl, htEl⟩ := Option.isSome_iff_exists.mp ht
  obtain ⟨sumEl, hsEl⟩ := Option.isSome_iff_exists.mp hs
  obtain ⟨pubEl, hpEl⟩ := Option.isSome_iff_exists.mp hp
  obtain ⟨authors, hauth⟩ := parseAuthors_ok_of_names ha
  cases hiEl : get_atom_child entry "id" with
  | none => rw [hiEl] at hi; cases hi
  | some idEl =>
    rw [hiEl] at hi
    obtain ⟨rawId, hraw⟩ := Option.isSome_iff_exists.mp hi
    have ht2 : get_atom_child_text entry "title" = .ok titleEl.text := by
      simp [get_atom_child_text, htEl]
    have hi2 : get_atom_child_text entry "id" = .ok (some rawId) := by
      simp [get_atom_child_text, hiEl, hraw]
    have hs2 : get_atom_child_text entry "summary" = .ok sumEl.text := by
      simp [get_atom_child_text, hsEl]
    have hp2 : get_atom_child_text entry "published" = .ok pubEl.text := by
      simp [get_atom_child_text, hpEl]
    cases hres : parse_entry entry with
    | ok r => exact ⟨r, rfl⟩
    | error e =>
      exfalso
      unfold parse_entry at hres
      rw [ht2, hi2, hs2, hp2] at hres
      simp only [hauth] at hres
      cases hres

theorem parseEntries_ok_of_wellShaped {l : List Element}
    (h : ∀ en ∈ l, wellShapedEntry en = true) :
    ∃ rs, parseEntries l = .ok rs := by
  induction l with
  | nil => exact ⟨[], rfl⟩
  | cons entry rest ih =>
    obtain ⟨r, hr⟩ := parse_entry_ok_of_wellShaped (h entry (by simp))
    obtain ⟨tail, htail⟩ := ih (fun x hx => h x (by simp [hx]))
    exact ⟨r :: tail, by unfold parseEntries; rw [hr, htail]⟩


/-- Counterexample to C2 as stated: `feedNoTitle` is a well-formed
envelope (so not `MalformedResponse` material), yet its single entry is
oddly shaped (no `title` child) and the parser fails on it — with the
unclassified `AttributeError`, not `MalformedResponse` — instead of
propagating absent values. -/
theorem c2_counterexample :
    parse_valid_response (.wellFormed feedNoTitle) = .error .AttributeError
    ∧ PyError.AttributeError ≠ PyError.ParseError :=
  ⟨rfl, by decide⟩

/-- C2 (amended): the parser fails with `MalformedResponse`
(`ParseError`) exactly when the body is not well-formed XML — no
malformed input ever surfaces as a different, unclassified failure — and
a well-formed body parses without failure provided every entry has its
`title`, `id` (with text), `summary` and `published` children and every
author a `name` child; absent `updated` or `link` elements and empty
text values never make the parser fail.  (Unlike the original claim, a
well-formed entry missing one of those four children, an id without
text, or an author without a `name` child does make the parser fail,
with an unclassified `AttributeError`.) -/
theorem c2_malformed_classification :
    (∀ x : XmlText, parse_valid_response x = .error .ParseError ↔ x = .malformed)
    ∧ (∀ root : Element,
        (∀ en ∈ get_atom_children root "entry", wellShapedEntry en = true) →
        ∃ rs, parse_valid_response (.wellFormed root) = .ok rs) := by
  constructor
  · intro x
    constructor
    · intro h
      cases x with
      | malformed => rfl
      | wellFormed root =>
        exfalso
        unfold parse_valid_response fromstring at h
        exact absurd (parseEntries_error_attr h) (by decide)
    · intro h
      subst h
      rfl
  · intro root h
    unfold parse_valid_response fromstring
    exact parseEntries_ok_of_wellShaped h

/-- Witness for C2 (amended): the two-entry well-shaped feed parses
without failure. -/
theorem c2_malformed_classification_witness :
    ∃ rs, parse_valid_response (.wellFormed feedGood) = .ok rs :=
  c2_malformed_classification.2 feedGood (by decide)


/-! ### Retrieval lemmas -/

theorem retrieve_error_branch (http_get : String → Response) (q : SearchQuery)
    {root entry summary : Element}
    (hok : (http_get (limitedQueryUrl q q.start q.max_result)).ok = false)
    (htext : (http_get (limitedQueryUrl q q.start q.max_result)).text = .wellFormed root)
    (hentry : get_atom_child root "entry" = some entry)
    (hsummary : get_atom_child entry "summary" = some summary) :
    retrieve_search_results http_get q = (.ok (.errorMessage summary.text), q) := by
  unfold retrieve_search_results get_response_with_limited_query
  simp only [hok, Bool.false_eq_true, if_false, parse_error, htext, fromstring, hentry,
    hsummary]

theorem retrieve_snd_eq (http_get : String → Response) (q : SearchQuery)
    (start space e : Nat) :
    (retrieve_valid_search_results http_get q start space e).2 = q := by
  rw [retrieve_valid_search_results]
  cases parse_valid_response (get_response_with_limited_query http_get q start space).text with
  | error err => rfl
  | ok b =>
    dsimp only
    by_cases h : 0 < space ∧ start + space ≤ e
    · rw [dif_pos h]
      have ih := retrieve_snd_eq http_get q (start + space) space e
      cases hr : retrieve_valid_search_results http_get q (start + space) space e with
      | mk res q2 =>
        rw [hr] at ih
        cases res with
        | error err => exact ih
        | ok rest => exact ih
    · rw [dif_neg h]
termination_by e + 1 - start
decreasing_by omega

theorem retrieve_fst_eq (http_get : String → Response) (q : SearchQuery)
    (start space e : Nat) (hsp : 0 < space) :
    (retrieve_valid_search_results http_get q start space e).1
      = batchesAt http_get q space (fetched_cursors start space e) := by
  rw [retrieve_valid_search_results, fetched_cursors]
  unfold get_response_with_limited_query
  cases hp : parse_valid_response (http_get (limitedQueryUrl q start space)).text with
  | error err => simp [batchesAt, hp]
  | ok b =>
    dsimp only
    by_cases h : 0 < space ∧ start + space ≤ e
    · rw [dif_pos h, dif_pos h]
      simp only [batchesAt, hp]
      have ih := retrieve_fst_eq http_get q (start + space) space e hsp
      cases hr : retrieve_valid_search_results http_get q (start + space) space e with
      | mk res q2 =>
        rw [hr] at ih
        rw [← ih]
        cases res with
        | error err => rfl
        | ok rest => rfl
    · rw [dif_neg h, dif_neg h]
      simp only [batchesAt, hp]
termination_by e + 1 - start
decreasing_by omega

theorem mem_fetched_cursors {c start space e : Nat}
    (h : c ∈ fetched_cursors start space e) : c = start ∨ c ≤ e := by
  rw [fetched_cursors] at h
  rcases List.mem_cons.mp h with h1 | h2
  · exact Or.inl h1
  · by_cases hg : 0 < space ∧ start + space ≤ e
    · rw [dif_pos hg] at h2
      rcases mem_fetched_cursors h2 with h3 | h3
      · right; omega
      · exact Or.inr h3
    · rw [dif_neg hg] at h2
      cases h2
termination_by e + 1 - start
decreasing_by omega

theorem boundary_mem_fetched_cursors {space e : Nat} (hsp : 0 < space) (j : Nat) :
    ∀ start, start + (j + 1) * space ≤ e →
      start + (j + 1) * space ∈ fetched_cursors start space e := by
  induction j with
  | zero =>
    intro start hle
    have h1 : (0 + 1) * space = space := by omega
    have hg : 0 < space ∧ start + space ≤ e := ⟨hsp, by omega⟩
    rw [fetched_cursors, dif_pos hg]
    apply List.mem_cons_of_mem
    rw [fetched_cursors, h1]
    exact List.mem_cons_self _ _
  | succ j ih =>
    intro start hle
    have hsucc : (j + 1 + 1) * space = (j + 1) * space + space := Nat.succ_mul _ _
    have hg : 0 < space ∧ start + space ≤ e := ⟨hsp, by omega⟩
    rw [fetched_cursors, dif_pos hg]
    apply List.mem_cons_of_mem
    have harith : start + (j + 1 + 1) * space = (start + space) + (j + 1) * space := by omega
    rw [harith]
    exact ih (start + space) (by omega)


/-- C3: when the starting response is non-`ok` and its body is a
well-formed error envelope (an `entry` whose `summary` child holds the
error text), the retrieval surfaces exactly that summary string instead
of producing any page batches, leaves the query object untouched, and is
terminal: the outcome depends only on the single starting fetch, so no
further fetch is issued or can affect it. -/
theorem c3_error_envelope (http_get : String → Response) (q : SearchQuery)
    {root entry summary : Element} {msg : String}
    (hok : (http_get (limitedQueryUrl q q.start q.max_result)).ok = false)
    (htext : (http_get (limitedQueryUrl q q.start q.max_result)).text = .wellFormed root)
    (hentry : get_atom_child root "entry" = some entry)
    (hsummary : get_atom_child entry "summary" = some summary)
    (htxt : summary.text = some msg) :
    (retrieve_search_results http_get q).1 = .ok (.errorMessage (some msg))
    ∧ (∀ hg2 : String → Response,
        hg2 (limitedQueryUrl q q.start q.max_result)
          = http_get (limitedQueryUrl q q.start q.max_result) →
        retrieve_search_results hg2 q = retrieve_search_results http_get q) := by
  have h1 := retrieve_error_branch http_get q hok htext hentry hsummary
  refine ⟨by rw [h1, htxt], fun hg2 h2 => ?_⟩
  have hok2 : (hg2 (limitedQueryUrl q q.start q.max_result)).ok = false := by
    rw [h2]; exact hok
  have htext2 : (hg2 (limitedQueryUrl q q.start q.max_result)).text = .wellFormed root := by
    rw [h2]; exact htext
  rw [retrieve_error_branch hg2 q hok2 htext2 hentry hsummary, h1]

/-- Witness for C3: a non-`ok` response carrying the fixture error
envelope surfaces the string "Invalid id list". -/
theorem c3_error_envelope_witness :
    (retrieve_search_results hgError qFixture).1
      = .ok (.errorMessage (some "Invalid id list")) :=
  (c3_error_envelope hgError qFixture rfl rfl rfl rfl rfl).1

theorem retrieve_search_snd (http_get : String → Response) (q : SearchQuery) :
    (retrieve_search_results http_get q).2 = q := by
  unfold retrieve_search_results
  by_cases hok : (get_response_with_limited_query http_get q q.start q.max_result).ok = true
  · simp only [hok, if_true]
    cases fromstring (get_response_with_limited_query http_get q q.start q.max_result).text with
    | error e => rfl
    | ok root =>
      dsimp only
      cases get_open_search_child root "totalResults" with
      | none => rfl
      | some totalEl =>
        dsimp only
        cases int_of_text totalEl.text with
        | error e => rfl
        | ok total_results =>
          dsimp only
          have hsnd := retrieve_snd_eq http_get q q.start q.max_result total_results
          cases hr : retrieve_valid_search_results http_get q q.start q.max_result
              total_results with
          | mk res q2 =>
            rw [hr] at hsnd
            cases res with
            | error e => exact hsnd
            | ok batches => exact hsnd
  · simp only [hok, if_false]
    cases parse_error (get_response_with_limited_query http_get q q.start q.max_result).text with
    | error e => rfl
    | ok msg => rfl

/-- C10: a retrieval never mutates the query object: both the page loop
and the whole retrieval return the `self` they were given, so the
rendered query string, the pagination window and the four term groups
are unchanged; each bounded request is built from the immutable rendered
query plus the local cursor. -/
theorem c10_spec_immutable (http_get : String → Response) (q : SearchQuery)
    (start space e : Nat) :
    (retrieve_valid_search_results http_get q start space e).2 = q
    ∧ (retrieve_search_results http_get q).2 = q
    ∧ ((retrieve_search_results http_get q).2.query = q.query
        ∧ (retrieve_search_results http_get q).2.start = q.start
        ∧ (retrieve_search_results http_get q).2.max_result = q.max_result
        ∧ (retrieve_search_results http_get q).2.title_args = q.title_args
        ∧ (retrieve_search_results http_get q).2.author_args = q.author_args
        ∧ (retrieve_search_results http_get q).2.abstract_args = q.abstract_args
        ∧ (retrieve_search_results http_get q).2.id_args = q.id_args)
    ∧ (∀ c sp, get_response_with_limited_query http_get q c sp
        = http_get (q.query ++ "&start=" ++ toString c ++ "&max_result=" ++ toString sp)) := by
  have h2 := retrieve_search_snd http_get q
  exact ⟨retrieve_snd_eq http_get q start space e, h2,
    ⟨by rw [h2], by rw [h2], by rw [h2], by rw [h2], by rw [h2], by rw [h2], by rw [h2]⟩,
    fun c sp => rfl⟩


/-- C1: a retrieval whose metadata fetch reports `totalResults = 25`
with window `(0, 10)` yields exactly the three page batches fetched at
cursors 0, 10 and 20, stopping once the advanced cursor 30 exceeds 25;
in general the loop's batches are exactly one per fetched cursor, a
fetched cursor other than the mandatory first never exceeds the total,
and every later page cursor up to and including the boundary
`cursor = totalKnown` is still fetched. -/
theorem c1_pagination (http_get : String → Response) (q : SearchQuery)
    {root totalEl : Element} {b0 b1 b2 : List SearchResult}
    (hstart : q.start = 0) (hmax : q.max_result = 10)
    (hok : (http_get (limitedQueryUrl q 0 10)).ok = true)
    (htext : (http_get (limitedQueryUrl q 0 10)).text = .wellFormed root)
    (htotalEl : get_open_search_child root "totalResults" = some totalEl)
    (htotal : int_of_text totalEl.text = .ok 25)
    (h0 : parse_valid_response (http_get (limitedQueryUrl q 0 10)).text = .ok b0)
    (h1 : parse_valid_response (http_get (limitedQueryUrl q 10 10)).text = .ok b1)
    (h2 : parse_valid_response (http_get (limitedQueryUrl q 20 10)).text = .ok b2) :
    (retrieve_search_results http_get q).1
        = .ok (.results [b0.enum, b1.enum, b2.enum])
    ∧ fetched_cursors 0 10 25 = [0, 10, 20]
    ∧ (∀ st sp e, 0 < sp →
        (retrieve_valid_search_results http_get q st sp e).1
          = batchesAt http_get q sp (fetched_cursors st sp e))
    ∧ (∀ st sp e c, c ∈ fetched_cursors st sp e → c = st ∨ c ≤ e)
    ∧ (∀ st sp e j, 0 < sp → st + (j + 1) * sp ≤ e →
        st + (j + 1) * sp ∈ fetched_cursors st sp e) := by
  have hcur : fetched_cursors 0 10 25 = [0, 10, 20] := by
    rw [fetched_cursors]
    rw [fetched_cursors]
    rw [fetched_cursors]
    norm_num
  have hbatches : batchesAt http_get q 10 [0, 10, 20] = .ok [b0.enum, b1.enum, b2.enum] := by
    simp [batchesAt, h0, h1, h2]
  have hloop : retrieve_valid_search_results http_get q 0 10 25
      = (.ok [b0.enum, b1.enum, b2.enum], q) := by
    have hfst := retrieve_fst_eq http_get q 0 10 25 (by norm_num)
    have hsnd := retrieve_snd_eq http_get q 0 10 25
    rw [hcur, hbatches] at hfst
    exact Prod.ext hfst hsnd
  refine ⟨?_, hcur, fun st sp e hsp => retrieve_fst_eq http_get q st sp e hsp,
    fun st sp e c hc => mem_fetched_cursors hc,
    fun st sp e j hsp hle => boundary_mem_fetched_cursors hsp j st hle⟩
  unfold retrieve_search_results get_response_with_limited_query
  rw [hstart, hmax]
  simp only [hok, if_true, htext, fromstring, htotalEl, htotal, hloop]

/-- Witness for C1: a transport always answering `ok` with the
`totalResults = 25`, zero-entry feed yields exactly three (empty)
batches. -/
theorem c1_pagination_witness :
    (retrieve_search_results hgTotal25 qFixture).1
      = .ok (.results [List.enum [], List.enum [], List.enum []]) :=
  (c1_pagination hgTotal25 qFixture rfl rfl rfl rfl rfl rfl rfl rfl rfl).1

end ArXivist
